import Mathlib

/-!
# Dependency inclusion tests: runner and standalone test program

A shallow embedding of the two programs of the repository:

* `src/src/main.cpp`: 23 probe functions `test_*`, the lambda `run_test` and
  `main`, which calls `run_test` 23 times and prints a summary
  (namespace `Inclusion`);
* `src/tests/src/main.cpp`: a `main` made of a libzip block, a libpng block and
  a FreeType block (namespace `Standalone`).

The third-party libraries are black boxes: what a library call returns is an
input of the model, and each call is recorded as an event of a trace, next to
the console writes.
-/

namespace DepsTest

/-! ## Shared vocabulary -/

/-- Library handles (pointers returned by the libraries); `Option Handle` is a
nullable pointer, `none` being `nullptr`. -/
abbrev Handle := Nat

/-- Kinds of library resources the two programs acquire. -/
inductive Res
  | tjhandle
  | FT_Library
  | hwloc_topology
  | zip
  | zip_error
  | png_struct
  | png_info
  deriving DecidableEq, Repr

/-- Calls into the third-party libraries, with the results that the programs
look at. The two `png_destroy_*` calls are libpng's release functions; they are
part of the library interface and are called nowhere in the sources. -/
inductive LibCall
  | tjInitCompress (handle : Option Handle)
  | tjDestroy (handle : Handle)
  | FT_Init_FreeType (error : Int) (library : Handle)
  | FT_Library_Version (library : Handle)
  | FT_Done_FreeType (library : Handle)
  | hwloc_topology_init (status : Int) (topology : Handle)
  | hwloc_topology_load (topology : Handle)
  | hwloc_topology_get_depth (topology : Handle)
  | hwloc_topology_destroy (topology : Handle)
  | loadFromData (document : Bool)
  | zip_open (zip : Option Handle) (errorCode : Int)
  | zip_close (zip : Handle)
  | zip_error_init_with_code (errorCode : Int)
  | zip_error_strerror
  | zip_error_fini
  | png_create_read_struct (png : Option Handle)
  | png_create_info_struct (png : Handle) (pngInfo : Option Handle)
  | png_destroy_read_struct (png : Handle)
  | png_destroy_info_struct (pngInfo : Handle)
  deriving DecidableEq, Repr

/-- Events of one function's execution, in program order: writes to
`std::cout`, writes to `std::cerr`, and library calls. -/
inductive Ev
  | cout (text : String)
  | cerr (text : String)
  | lib (call : LibCall)
  deriving DecidableEq, Repr

/-- The resource a library call hands to the caller, when it succeeds in
creating one. -/
def acquired : LibCall → Option (Res × Handle)
  | .tjInitCompress (some h) => some (.tjhandle, h)
  | .FT_Init_FreeType error library => if error = 0 then some (.FT_Library, library) else none
  | .hwloc_topology_init status topology =>
      if status = 0 then some (.hwloc_topology, topology) else none
  | .zip_open (some z) _ => some (.zip, z)
  | .zip_error_init_with_code _ => some (.zip_error, 0)
  | .png_create_read_struct (some p) => some (.png_struct, p)
  | .png_create_info_struct _ (some i) => some (.png_info, i)
  | _ => none

/-- The resource a library call gives back to its library. -/
def released : LibCall → Option (Res × Handle)
  | .tjDestroy h => some (.tjhandle, h)
  | .FT_Done_FreeType library => some (.FT_Library, library)
  | .hwloc_topology_destroy topology => some (.hwloc_topology, topology)
  | .zip_close z => some (.zip, z)
  | .zip_error_fini => some (.zip_error, 0)
  | .png_destroy_read_struct p => some (.png_struct, p)
  | .png_destroy_info_struct i => some (.png_info, i)
  | _ => none

/-- Resources held after the events `tr`, starting from the held resources
`held`: an acquisition adds its resource, a release removes it. -/
def outstandingFrom : List (Res × Handle) → List Ev → List (Res × Handle)
  | held, [] => held
  | held, .lib c :: tr =>
      match acquired c, released c with
      | some r, _ => outstandingFrom (held ++ [r]) tr
      | none, some r => outstandingFrom (held.erase r) tr
      | none, none => outstandingFrom held tr
  | held, _ :: tr => outstandingFrom held tr

/-- Resources acquired during `tr` and not released by its end. -/
def outstanding (tr : List Ev) : List (Res × Handle) :=
  outstandingFrom [] tr

/-- The macro `EXIT_SUCCESS` of `<cstdlib>`. -/
def EXIT_SUCCESS : Int := 0

/-- The macro `EXIT_FAILURE` of `<cstdlib>` (1 on the usual platforms). -/
def EXIT_FAILURE : Int := 1

/-- Reduction of an integer to the range of a 32-bit two's complement `int`. -/
def wrapInt (x : Int) : Int :=
  (x + 2147483648) % 4294967296 - 2147483648

/-- The largest value of an `int`. -/
def INT_MAX : Int := 2147483647

/-- The statement `x++` on an `int` counter. Signed overflow is undefined in
C++; the model wraps, as the usual targets do, and no claim below depends on
the value after a wrap. -/
def incr (x : Int) : Int :=
  wrapInt (x + 1)

/-! ## `src/src/main.cpp` -/

namespace Inclusion

/-- The 23 probe functions, as the function pointers passed to `run_test`. -/
inductive TestFunc
  | test_zlib
  | test_bzip2
  | test_lzma
  | test_zstd
  | test_brotli
  | test_libpng
  | test_libjpeg
  | test_libwebp
  | test_freetype
  | test_harfbuzz
  | test_openal
  | test_libsamplerate
  | test_taglib
  | test_libzip
  | test_cpu_features
  | test_hwloc
  | test_cryptopp
  | test_clipper2
  | test_libzmq
  | test_cppzmq
  | test_fastgltf
  | test_jsoncpp
  | test_lunasvg
  deriving DecidableEq, Repr

/-- How a call `test_func()` of type `bool (*)()` ends: it returns a `bool`, it
throws an object whose type derives from `std::exception` (with the text of
`what()`), or it throws an object of any other type. -/
inductive Outcome
  | ret (ok : Bool)
  | throwStd (what : String)
  | throwOther
  deriving DecidableEq, Repr

/-- One execution of a probe function: the events it performs and how it
ends. -/
structure Exec where
  trace : List Ev
  outcome : Outcome
  deriving DecidableEq, Repr

/-- Body of `test_libjpeg`; `handle` is what `tjInitCompress()` returns. -/
def test_libjpeg (handle : Option Handle) : Exec :=
  match handle with
  | some h =>
      { trace := [.lib (.tjInitCompress (some h)), .lib (.tjDestroy h),
                  .cout "  libjpeg-turbo: OK (turbojpeg API)\n"],
        outcome := .ret true }
  | none =>
      { trace := [.lib (.tjInitCompress none)], outcome := .ret false }

/-- Body of `test_freetype`; `error` is what `FT_Init_FreeType(&library)`
returns and `library` the handle it stores, `major`, `minor`, `patch` are what
`FT_Library_Version` stores. -/
def test_freetype (error : Int) (library : Handle) (major minor patch : Int) : Exec :=
  if error = 0 then
    { trace := [.lib (.FT_Init_FreeType error library), .lib (.FT_Library_Version library),
                .cout ("  freetype version: " ++ toString major ++ "." ++ toString minor
                        ++ "." ++ toString patch ++ "\n"),
                .lib (.FT_Done_FreeType library)],
      outcome := .ret true }
  else
    { trace := [.lib (.FT_Init_FreeType error library)], outcome := .ret false }

/-- Body of `test_hwloc`; `status` is what `hwloc_topology_init(&topology)`
returns (the source does not look at it) and `topology` the value of the
variable afterwards, `depth` is what `hwloc_topology_get_depth` returns. -/
def test_hwloc (status : Int) (topology : Handle) (depth : Int) : Exec :=
  { trace := [.lib (.hwloc_topology_init status topology), .lib (.hwloc_topology_load topology),
              .lib (.hwloc_topology_get_depth topology),
              .cout ("  hwloc: OK (topology depth: " ++ toString depth ++ ")\n"),
              .lib (.hwloc_topology_destroy topology)],
    outcome := .ret true }

/-- What the program reads of a `lunasvg::Document`: the texts that
`operator<<` prints for `width()` and `height()`. -/
structure Document where
  width : String
  height : String
  deriving DecidableEq, Repr

/-- Body of `test_lunasvg`; `document` is what `Document::loadFromData`
returns (`none` for a null pointer). -/
def test_lunasvg (document : Option Document) : Exec :=
  match document with
  | some d =>
      { trace := [.lib (.loadFromData true),
                  .cout ("  lunasvg: OK (SVG parsed, size: " ++ d.width ++ "x" ++ d.height
                          ++ ")\n")],
        outcome := .ret true }
  | none =>
      { trace := [.lib (.loadFromData false), .cout "  lunasvg: OK (linkage verified)\n"],
        outcome := .ret true }

/-- Events of `main` itself, in program order. -/
inductive RunEv
  | cout (text : String)
  | start (name : String)
  | call (test_func : TestFunc) (trace : List Ev)
  | failed
  | exception (what : String)
  deriving DecidableEq, Repr

/-- The stream and text of an event of `main`; the events of a probe call are
the probe's own. -/
def render : RunEv → List Ev
  | .cout text => [.cout text]
  | .start name => [.cout ("[TEST] " ++ name ++ "\n")]
  | .call _ trace => trace
  | .failed => [.cerr "  FAILED!\n"]
  | .exception what => [.cerr ("  EXCEPTION: " ++ what ++ "\n")]

/-- The local variables `passed` and `failed` of `main`, and the events so
far. -/
structure State where
  passed : Int
  failed : Int
  log : List RunEv
  deriving DecidableEq, Repr

/-- The lambda `run_test` of `main`. `env` says what each probe function does
when called. The result is `.ok` when the lambda returns and `.error` when an
exception leaves it: the handler is `catch (const std::exception&)`, so only
`throwStd` is caught. -/
def run_test (env : TestFunc → Exec) (name : String) (test_func : TestFunc) (s : State) :
    Except State State :=
  let s1 : State := { s with log := s.log ++ [.start name] }
  let r := env test_func
  let s2 : State := { s1 with log := s1.log ++ [.call test_func r.trace] }
  match r.outcome with
  | .ret true => .ok { s2 with passed := incr s2.passed }
  | .ret false => .ok { s2 with log := s2.log ++ [.failed], failed := incr s2.failed }
  | .throwStd what =>
      .ok { s2 with log := s2.log ++ [.exception what], failed := incr s2.failed }
  | .throwOther => .error s2

/-- Statements of `main` between the declaration of `run_test` and the
summary: a write of a heading to `std::cout`, or a call of `run_test`. -/
inductive Stmt
  | print (text : String)
  | run (name : String) (test_func : TestFunc)
  deriving DecidableEq, Repr

/-- Lines 362 to 405 of `main`, in order. -/
def body : List Stmt :=
  [ .print "--- Compression Libraries ---\n",
    .run "zlib" .test_zlib,
    .run "bzip2" .test_bzip2,
    .run "lzma" .test_lzma,
    .run "zstd" .test_zstd,
    .run "brotli" .test_brotli,
    .print "\n--- Image Libraries ---\n",
    .run "libpng" .test_libpng,
    .run "libjpeg-turbo" .test_libjpeg,
    .run "libwebp" .test_libwebp,
    .print "\n--- Font Libraries ---\n",
    .run "freetype" .test_freetype,
    .run "harfbuzz" .test_harfbuzz,
    .print "\n--- Audio Libraries ---\n",
    .run "openal-soft" .test_openal,
    .run "libsamplerate" .test_libsamplerate,
    .run "taglib" .test_taglib,
    .print "\n--- Archive/Utility Libraries ---\n",
    .run "libzip" .test_libzip,
    .print "\n--- System Libraries ---\n",
    .run "cpu_features" .test_cpu_features,
    .run "hwloc" .test_hwloc,
    .print "\n--- Crypto Libraries ---\n",
    .run "cryptopp" .test_cryptopp,
    .print "\n--- Geometry Libraries ---\n",
    .run "clipper2" .test_clipper2,
    .print "\n--- Networking Libraries ---\n",
    .run "libzmq" .test_libzmq,
    .run "cppzmq" .test_cppzmq,
    .print "\n--- Data Format Libraries ---\n",
    .run "fastgltf" .test_fastgltf,
    .run "jsoncpp" .test_jsoncpp,
    .print "\n--- SVG Libraries ---\n",
    .run "lunasvg" .test_lunasvg ]

/-- Sequential execution of statements; an exception that leaves `run_test`
leaves the whole sequence. -/
def exec (env : TestFunc → Exec) : List Stmt → State → Except State State
  | [], s => .ok s
  | .print text :: rest, s => exec env rest { s with log := s.log ++ [.cout text] }
  | .run name test_func :: rest, s =>
      match run_test env name test_func s with
      | .ok s1 => exec env rest s1
      | .error s1 => .error s1

/-- How the process of `main` ends: `main` returns a status, or an exception
leaves `main` and the process is ended by `std::terminate`. -/
inductive MainResult
  | returned (status : Int) (final : State)
  | terminated (final : State)
  deriving DecidableEq, Repr

/-- The state after the banner of `main` (lines 339 to 345). -/
def initial : State :=
  { passed := 0, failed := 0,
    log := [.cout "\n", .cout "========================================\n",
            .cout "   Dependencies Inclusion Test\n",
            .cout "========================================\n\n"] }

/-- The summary line of `main` (line 408). -/
def summary (s : State) : String :=
  "   Results: " ++ toString s.passed ++ " passed, " ++ toString s.failed ++ " failed\n"

/-- The function `main` with the statements between the banner and the summary
as a parameter. -/
def main_with (env : TestFunc → Exec) (stmts : List Stmt) : MainResult :=
  match exec env stmts initial with
  | .error s => .terminated s
  | .ok s =>
      .returned (if s.failed > 0 then EXIT_FAILURE else EXIT_SUCCESS)
        { s with log := s.log ++ [.cout "\n========================================\n",
                                  .cout (summary s),
                                  .cout "========================================\n\n"] }

/-- The function `main` of `src/src/main.cpp`. -/
def main (env : TestFunc → Exec) : MainResult :=
  main_with env body

/-- Names announced by the start markers `[TEST] <name>` of a log, in order. -/
def started : List RunEv → List String
  | [] => []
  | .start name :: l => name :: started l
  | _ :: l => started l

/-- Probe functions called in a log, in order. -/
def invoked : List RunEv → List TestFunc
  | [] => []
  | .call f _ :: l => f :: invoked l
  | _ :: l => invoked l

/-- The state in which the process of `main` ended. -/
def MainResult.final : MainResult → State
  | .returned _ s => s
  | .terminated s => s

/-- Names passed to `run_test` by a list of statements, in order. -/
def names : List Stmt → List String
  | [] => []
  | .run name _ :: b => name :: names b
  | .print _ :: b => names b

/-- Probe functions passed to `run_test` by a list of statements, in order. -/
def funcs : List Stmt → List TestFunc
  | [] => []
  | .run _ f :: b => f :: funcs b
  | .print _ :: b => funcs b

/-- Whether a probe fails: it returns `false` or raises an error of any
type. -/
def Outcome.fails : Outcome → Bool
  | .ret true => false
  | _ => true

/-- Number of probes of `b` that return `true`. -/
def countPassed (env : TestFunc → Exec) (b : List Stmt) : Nat :=
  ((funcs b).filter (fun f => (env f).outcome = .ret true)).length

/-- Number of probes of `b` that return `false` or raise an error. -/
def countFailed (env : TestFunc → Exec) (b : List Stmt) : Nat :=
  ((funcs b).filter (fun f => (env f).outcome.fails)).length

/-- Every probe prints nothing and returns `true`. -/
def allTrue : TestFunc → Exec :=
  fun _ => { trace := [], outcome := .ret true }

/-- The probe `test_zlib` returns `false`, `test_bzip2` throws a
`std::runtime_error("boom")`, the others return `true`. -/
def mixed : TestFunc → Exec :=
  fun f =>
    match f with
    | .test_zlib => { trace := [], outcome := .ret false }
    | .test_bzip2 => { trace := [], outcome := .throwStd "boom" }
    | _ => { trace := [], outcome := .ret true }

/-- The probe `test_zlib` throws an object whose type does not derive from
`std::exception` (such as `throw 42;`), the others return `true`. -/
def foreign : TestFunc → Exec :=
  fun f =>
    match f with
    | .test_zlib => { trace := [], outcome := .throwOther }
    | _ => { trace := [], outcome := .ret true }

/-- Three calls of `run_test`, for the probes P1, P2 and P3. -/
def threeProbes : List Stmt :=
  [.run "P1" .test_zlib, .run "P2" .test_bzip2, .run "P3" .test_lzma]

/-- The probe P2 throws a `std::runtime_error("boom")`, P1 and P3 return
`true`. -/
def raiseStd : TestFunc → Exec :=
  fun f =>
    match f with
    | .test_bzip2 => { trace := [], outcome := .throwStd "boom" }
    | _ => { trace := [], outcome := .ret true }

/-- The probe P2 throws an object whose type does not derive from
`std::exception`, P1 and P3 return `true`. -/
def raiseOther : TestFunc → Exec :=
  fun f =>
    match f with
    | .test_bzip2 => { trace := [], outcome := .throwOther }
    | _ => { trace := [], outcome := .ret true }

/-- The library loads no document: `test_lunasvg` runs with a null
`document`; `test_libjpeg` gets a handle; the other probes return `true`. -/
def nullDocument : TestFunc → Exec :=
  fun f =>
    match f with
    | .test_lunasvg => test_lunasvg none
    | .test_libjpeg => test_libjpeg (some 1)
    | _ => { trace := [], outcome := .ret true }

/-- Both `tjInitCompress` and `FT_Init_FreeType` fail: `test_libjpeg` gets a
null handle and `test_freetype` the error 1; the other probes return `true`. -/
def nullHandles : TestFunc → Exec :=
  fun f =>
    match f with
    | .test_libjpeg => test_libjpeg none
    | .test_freetype => test_freetype 1 0 0 0 0
    | _ => { trace := [], outcome := .ret true }

end Inclusion

/-! ## `src/tests/src/main.cpp` -/

namespace Standalone

/-- What the libraries answer to the calls of the standalone `main`. -/
structure Libs where
  /-- what `zip_open("inexistant.zip", 0, &errorCode)` returns -/
  zip : Option Handle
  /-- the value of `errorCode` after `zip_open` -/
  errorCode : Int
  /-- the text `zip_error_strerror` gives for an error initialised with a code -/
  strerror : Int → String
  /-- what `png_create_read_struct` returns -/
  png : Option Handle
  /-- what `png_create_info_struct(png)` returns -/
  pngInfo : Option Handle
  /-- what `FT_Init_FreeType(&library)` returns -/
  ftError : Int
  /-- the handle `FT_Init_FreeType` stores in `library` -/
  library : Handle

/-- One run of the standalone `main`: its events and its return value, the
exit status of the process. -/
structure Run where
  trace : List Ev
  status : Int
  deriving DecidableEq, Repr

/-- The first block of `main` (lines 13 to 32): the attempt to open
`inexistant.zip`. It has no `return`. -/
def zip_block (L : Libs) : List Ev :=
  match L.zip with
  | some zip => [.lib (.zip_open (some zip) L.errorCode), .lib (.zip_close zip)]
  | none =>
      [.lib (.zip_open none L.errorCode), .lib (.zip_error_init_with_code L.errorCode),
       .lib .zip_error_strerror,
       .cout ("Expected error from ziplib (No such file !) : " ++ L.strerror L.errorCode
               ++ " !\n"),
       .lib .zip_error_fini]

/-- The value of `__PRETTY_FUNCTION__` in `main` (GCC and Clang). -/
def PRETTY_FUNCTION : String := "int main(int, char**)"

/-- Conversion of a `bool` to the `int` that `main` returns. -/
def boolToInt (b : Bool) : Int :=
  if b then 1 else 0

/-- What `main` does after the libzip block (lines 34 to 63), as events and
return value. -/
def after_zip (L : Libs) : Run :=
  match L.png with
  | none => { trace := [.lib (.png_create_read_struct none)], status := boolToInt false }
  | some png =>
      match L.pngInfo with
      | none =>
          { trace := [.lib (.png_create_read_struct (some png)),
                      .lib (.png_create_info_struct png none)],
            status := boolToInt false }
      | some pngInfo =>
          if L.ftError > 0 then
            { trace := [.lib (.png_create_read_struct (some png)),
                        .lib (.png_create_info_struct png (some pngInfo)),
                        .lib (.FT_Init_FreeType L.ftError L.library),
                        .cerr ("[ERROR] " ++ PRETTY_FUNCTION ++ ", FreeType 2 init failed !\n")],
              status := EXIT_FAILURE }
          else
            { trace := [.lib (.png_create_read_struct (some png)),
                        .lib (.png_create_info_struct png (some pngInfo)),
                        .lib (.FT_Init_FreeType L.ftError L.library),
                        .lib (.FT_Done_FreeType L.library)],
              status := EXIT_SUCCESS }

/-- The function `main` of `src/tests/src/main.cpp`. -/
def main (L : Libs) : Run :=
  let rest := after_zip L
  { trace := [.cout "Dependencies tests.\n"] ++ zip_block L ++ rest.trace,
    status := rest.status }

/-- The libraries work, and `inexistant.zip` does not exist (libzip reports
`ZIP_ER_NOENT`, code 9). -/
def nominal : Libs :=
  { zip := none, errorCode := 9, strerror := fun _ => "No such file",
    png := some 1, pngInfo := some 2, ftError := 0, library := 3 }

/-- As `nominal`, but `png_create_read_struct` returns a null pointer. -/
def pngNull : Libs :=
  { nominal with png := none }

/-- As `nominal`, but `png_create_info_struct` returns a null pointer. -/
def pngInfoNull : Libs :=
  { nominal with pngInfo := none }

/-- As `nominal`, but `inexistant.zip` can be opened. -/
def zipOpens : Libs :=
  { nominal with zip := some 7, errorCode := 0 }

end Standalone

/-! ## Lemmas on the runner -/

namespace Inclusion

theorem incr_of_lt (x : Int) (h0 : 0 ≤ x) (h1 : x < INT_MAX) : incr x = x + 1 := by
  unfold incr wrapInt
  unfold INT_MAX at h1
  omega

theorem incr_INT_MAX : incr INT_MAX = -2147483648 := by
  decide

theorem started_append (l1 l2 : List RunEv) : started (l1 ++ l2) = started l1 ++ started l2 := by
  induction l1 with
  | nil => rfl
  | cons e l ih => cases e <;> simp [started, ih]

theorem invoked_append (l1 l2 : List RunEv) : invoked (l1 ++ l2) = invoked l1 ++ invoked l2 := by
  induction l1 with
  | nil => rfl
  | cons e l ih => cases e <;> simp [invoked, ih]

theorem count_total (env : TestFunc → Exec) (b : List Stmt) :
    countPassed env b + countFailed env b = (funcs b).length := by
  unfold countPassed countFailed
  induction funcs b with
  | nil => rfl
  | cons f l ih =>
    by_cases h : (env f).outcome = .ret true
    · have hx : (Outcome.ret true).fails = false := rfl
      simp [List.filter_cons, h, hx]; omega
    · have hx : (env f).outcome.fails = true := by
        rcases ho : (env f).outcome with ok | what | _
        · cases ok
          · rfl
          · exact absurd ho h
        · rfl
        · rfl
      simp [List.filter_cons, h, hx]; omega

/-- What `run_test` does for each of the four outcomes of the probe. -/
theorem run_test_cases (env : TestFunc → Exec) (name : String) (f : TestFunc) (s : State) :
    ((env f).outcome = .ret true →
      run_test env name f s =
        .ok ⟨incr s.passed, s.failed, s.log ++ [.start name] ++ [.call f (env f).trace]⟩) ∧
    ((env f).outcome = .ret false →
      run_test env name f s =
        .ok ⟨s.passed, incr s.failed,
          s.log ++ [.start name] ++ [.call f (env f).trace] ++ [.failed]⟩) ∧
    (∀ what, (env f).outcome = .throwStd what →
      run_test env name f s =
        .ok ⟨s.passed, incr s.failed,
          s.log ++ [.start name] ++ [.call f (env f).trace] ++ [.exception what]⟩) ∧
    ((env f).outcome = .throwOther →
      run_test env name f s =
        .error ⟨s.passed, s.failed, s.log ++ [.start name] ++ [.call f (env f).trace]⟩) := by
  refine ⟨?_, ?_, ?_, ?_⟩
  · intro h; simp [run_test, h]
  · intro h; simp [run_test, h]
  · intro what h; simp [run_test, h]
  · intro h; simp [run_test, h]

theorem exec_run_ok (env : TestFunc → Exec) (name : String) (f : TestFunc) (b : List Stmt)
    (s s2 : State) (h : run_test env name f s = .ok s2) :
    exec env (.run name f :: b) s = exec env b s2 := by
  simp [exec, h]

theorem exec_run_error (env : TestFunc → Exec) (name : String) (f : TestFunc) (b : List Stmt)
    (s s2 : State) (h : run_test env name f s = .error s2) :
    exec env (.run name f :: b) s = .error s2 := by
  simp [exec, h]

theorem countPassed_run (env : TestFunc → Exec) (name : String) (f : TestFunc) (b : List Stmt) :
    countPassed env (.run name f :: b)
      = (if (env f).outcome = .ret true then 1 else 0) + countPassed env b := by
  unfold countPassed
  by_cases h : (env f).outcome = .ret true
  · simp [funcs, List.filter_cons, h]; omega
  · simp [funcs, List.filter_cons, h]

theorem countFailed_run (env : TestFunc → Exec) (name : String) (f : TestFunc) (b : List Stmt) :
    countFailed env (.run name f :: b)
      = (if (env f).outcome.fails = true then 1 else 0) + countFailed env b := by
  unfold countFailed
  by_cases h : (env f).outcome.fails = true
  · simp [funcs, List.filter_cons, h]; omega
  · simp [funcs, List.filter_cons, h]

/-- One step of `exec_caught`: a call of `run_test` that returns, followed by
the remaining statements. -/
theorem exec_step (env : TestFunc → Exec) (name : String) (f : TestFunc) (b : List Stmt)
    (s s2 s1 : State) (dp df : Nat) (post : List RunEv)
    (hr : run_test env name f s = .ok s2)
    (hlog : s2.log = s.log ++ [.start name] ++ [.call f (env f).trace] ++ post)
    (hpost : started post = [] ∧ invoked post = [])
    (h2p : s2.passed = s.passed + dp) (h2f : s2.failed = s.failed + df)
    (hcp : countPassed env (.run name f :: b) = dp + countPassed env b)
    (hcf : countFailed env (.run name f :: b) = df + countFailed env b)
    (h1 : exec env b s2 = .ok s1)
    (hp : s1.passed = s2.passed + countPassed env b)
    (hf : s1.failed = s2.failed + countFailed env b)
    (hs : started s1.log = started s2.log ++ names b)
    (hi : invoked s1.log = invoked s2.log ++ funcs b) :
    exec env (.run name f :: b) s = .ok s1 ∧
      s1.passed = s.passed + countPassed env (.run name f :: b) ∧
      s1.failed = s.failed + countFailed env (.run name f :: b) ∧
      started s1.log = started s.log ++ names (.run name f :: b) ∧
      invoked s1.log = invoked s.log ++ funcs (.run name f :: b) := by
  refine ⟨by rw [exec_run_ok env name f b s s2 hr]; exact h1, ?_, ?_, ?_, ?_⟩
  · rw [hp, h2p, hcp]; push_cast; ring
  · rw [hf, h2f, hcf]; push_cast; ring
  · rw [hs, hlog]; simp [started_append, started, names, hpost.1]
  · rw [hi, hlog]; simp [invoked_append, invoked, funcs, hpost.2]

/-- When no probe of `b` raises an error that `run_test` does not catch, and
the counters stay in the range of `int`, the statements run to their end, the
counters grow by the number of probes of each kind, and every probe is
announced and called, in order. -/
theorem exec_caught (env : TestFunc → Exec) (b : List Stmt) (s : State)
    (h : ∀ f ∈ funcs b, (env f).outcome ≠ .throwOther)
    (hp : 0 ≤ s.passed) (hf : 0 ≤ s.failed)
    (hb : s.passed + s.failed + (funcs b).length ≤ INT_MAX) :
    ∃ s1, exec env b s = .ok s1 ∧ s1.passed = s.passed + countPassed env b ∧
      s1.failed = s.failed + countFailed env b ∧
      started s1.log = started s.log ++ names b ∧
      invoked s1.log = invoked s.log ++ funcs b := by
  induction b generalizing s with
  | nil => exact ⟨s, rfl, by simp [countPassed, funcs], by simp [countFailed, funcs],
      by simp [names], by simp [funcs]⟩
  | cons st b ih =>
    cases st with
    | print text =>
      obtain ⟨s1, h1, h2, h3, h4, h5⟩ := ih { s with log := s.log ++ [.cout text] }
        (by simpa [funcs] using h) hp hf (by simpa [funcs] using hb)
      refine ⟨s1, by simpa [exec] using h1, ?_, ?_, ?_, ?_⟩
      · simpa [countPassed, funcs] using h2
      · simpa [countFailed, funcs] using h3
      · simpa [names, started_append, started] using h4
      · simpa [funcs, invoked_append, invoked] using h5
    | run name f =>
      have hne : (env f).outcome ≠ .throwOther := h f (by simp [funcs])
      have hrest : ∀ g ∈ funcs b, (env g).outcome ≠ .throwOther :=
        fun g hg => h g (by simp [funcs, hg])
      have hlen : s.passed + s.failed + ((funcs b).length + 1) ≤ INT_MAX := by
        simpa [funcs] using hb
      have hc := run_test_cases env name f s
      have hcp := countPassed_run env name f b
      have hcf := countFailed_run env name f b
      have hfi : incr s.failed = s.failed + 1 := incr_of_lt _ hf (by omega)
      have hpi : incr s.passed = s.passed + 1 := incr_of_lt _ hp (by omega)
      rcases ho : (env f).outcome with ok | what | _
      · cases ok
        · obtain ⟨s1, h1, h2, h3, h4, h5⟩ := ih
            ⟨s.passed, incr s.failed,
              s.log ++ [.start name] ++ [.call f (env f).trace] ++ [.failed]⟩
            hrest hp (show 0 ≤ incr s.failed by rw [hfi]; omega)
            (show s.passed + incr s.failed + _ ≤ INT_MAX by rw [hfi]; omega)
          exact ⟨s1, exec_step env name f b s _ s1 0 1 [.failed] (hc.2.1 ho) rfl ⟨rfl, rfl⟩
            (by simp) (by simp [hfi]) (by rw [hcp, ho]; simp)
            (by rw [hcf, ho]; simp [Outcome.fails]) h1 h2 h3 h4 h5⟩
        · obtain ⟨s1, h1, h2, h3, h4, h5⟩ := ih
            ⟨incr s.passed, s.failed, s.log ++ [.start name] ++ [.call f (env f).trace]⟩
            hrest (show 0 ≤ incr s.passed by rw [hpi]; omega) hf
            (show incr s.passed + s.failed + _ ≤ INT_MAX by rw [hpi]; omega)
          exact ⟨s1, exec_step env name f b s _ s1 1 0 [] (hc.1 ho) (by simp) ⟨rfl, rfl⟩
            (by simp [hpi]) (by simp) (by rw [hcp, ho]; simp)
            (by rw [hcf, ho]; simp [Outcome.fails]) h1 h2 h3 h4 h5⟩
      · obtain ⟨s1, h1, h2, h3, h4, h5⟩ := ih
          ⟨s.passed, incr s.failed,
            s.log ++ [.start name] ++ [.call f (env f).trace] ++ [.exception what]⟩
          hrest hp (show 0 ≤ incr s.failed by rw [hfi]; omega)
          (show s.passed + incr s.failed + _ ≤ INT_MAX by rw [hfi]; omega)
        exact ⟨s1, exec_step env name f b s _ s1 0 1 [.exception what] (hc.2.2.1 what ho) rfl
          ⟨rfl, rfl⟩ (by simp) (by simp [hfi]) (by rw [hcp, ho]; simp)
          (by rw [hcf, ho]; simp [Outcome.fails]) h1 h2 h3 h4 h5⟩
      · exact absurd ho hne

/-- When the statements run to their end, no probe of them raised an error
that `run_test` does not catch. -/
theorem caught_of_exec_ok (env : TestFunc → Exec) (b : List Stmt) (s s1 : State)
    (h : exec env b s = .ok s1) : ∀ f ∈ funcs b, (env f).outcome ≠ .throwOther := by
  induction b generalizing s with
  | nil => intro f hf; simp [funcs] at hf
  | cons st b ih =>
    cases st with
    | print text =>
      simp only [exec] at h
      simpa [funcs] using ih _ h
    | run name g =>
      have hc := run_test_cases env name g s
      simp only [exec] at h
      intro f hf
      simp only [funcs, List.mem_cons] at hf
      rcases ho : (env g).outcome with ok | what | _
      · rcases hf with rfl | hf
        · simp [ho]
        · cases ok
          · rw [hc.2.1 ho] at h; exact ih _ h f hf
          · rw [hc.1 ho] at h; exact ih _ h f hf
      · rcases hf with rfl | hf
        · simp [ho]
        · rw [hc.2.2.1 what ho] at h; exact ih _ h f hf
      · rw [hc.2.2.2 ho] at h; simp at h

theorem funcs_body :
    funcs body = [.test_zlib, .test_bzip2, .test_lzma, .test_zstd, .test_brotli, .test_libpng,
      .test_libjpeg, .test_libwebp, .test_freetype, .test_harfbuzz, .test_openal,
      .test_libsamplerate, .test_taglib, .test_libzip, .test_cpu_features, .test_hwloc,
      .test_cryptopp, .test_clipper2, .test_libzmq, .test_cppzmq, .test_fastgltf,
      .test_jsoncpp, .test_lunasvg] := by
  rfl

theorem names_body :
    names body = ["zlib", "bzip2", "lzma", "zstd", "brotli", "libpng", "libjpeg-turbo",
      "libwebp", "freetype", "harfbuzz", "openal-soft", "libsamplerate", "taglib", "libzip",
      "cpu_features", "hwloc", "cryptopp", "clipper2", "libzmq", "cppzmq", "fastgltf",
      "jsoncpp", "lunasvg"] := by
  rfl

theorem mem_funcs_body (f : TestFunc) : f ∈ funcs body := by
  rw [funcs_body]; cases f <;> simp

theorem count_funcs_body (f : TestFunc) : (funcs body).count f = 1 := by
  rw [funcs_body]; cases f <;> decide

theorem countPassed_allTrue (env : TestFunc → Exec) (b : List Stmt)
    (h : ∀ f, (env f).outcome = .ret true) : countPassed env b = (funcs b).length := by
  unfold countPassed
  rw [List.filter_eq_self.2]
  intro f _
  simp [h f]

theorem countFailed_pos (env : TestFunc → Exec) (b : List Stmt) (f : TestFunc)
    (hf : f ∈ funcs b) (h : (env f).outcome.fails = true) : 0 < countFailed env b := by
  unfold countFailed
  exact List.length_pos_of_mem (List.mem_filter.2 ⟨hf, h⟩)

/-- The statements of `main` when every error raised is caught by
`run_test`. -/
theorem exec_body (env : TestFunc → Exec) (h : ∀ f, (env f).outcome ≠ .throwOther) :
    ∃ s, exec env body initial = .ok s ∧ s.passed = countPassed env body ∧
      s.failed = countFailed env body ∧ started s.log = names body ∧
      invoked s.log = funcs body := by
  obtain ⟨s, h1, h2, h3, h4, h5⟩ := exec_caught env body initial (fun f _ => h f)
    (by decide) (by decide) (by rw [funcs_body]; decide)
  refine ⟨s, h1, ?_, ?_, ?_, ?_⟩
  · rw [h2]; simp [initial]
  · rw [h3]; simp [initial]
  · rw [h4]; simp [initial, started]
  · rw [h5]; simp [initial, invoked]

/-- The value `main_with` returns after statements that run to their end. -/
theorem main_with_ok (env : TestFunc → Exec) (b : List Stmt) (s : State)
    (h : exec env b initial = .ok s) :
    ∃ st, main_with env b = .returned (if s.failed > 0 then EXIT_FAILURE else EXIT_SUCCESS) st ∧
      st.passed = s.passed ∧ st.failed = s.failed ∧ started st.log = started s.log ∧
      invoked st.log = invoked s.log ∧ RunEv.cout (summary s) ∈ st.log := by
  refine ⟨⟨s.passed, s.failed,
      s.log ++ [.cout "\n========================================\n", .cout (summary s),
        .cout "========================================\n\n"]⟩,
    by simp only [main_with, h], rfl, rfl, ?_, ?_, ?_⟩
  · simp [started_append, started]
  · simp [invoked_append, invoked]
  · simp

/-- When `main_with` returns, its statements ran to their end. -/
theorem exec_of_returned (env : TestFunc → Exec) (b : List Stmt) (status : Int) (st : State)
    (h : main_with env b = .returned status st) :
    ∃ s, exec env b initial = .ok s := by
  unfold main_with at h
  cases hx : exec env b initial with
  | ok s => exact ⟨s, rfl⟩
  | error s => rw [hx] at h; simp at h

/-- The counters and the start markers depend on the outcomes of the probes
only, not on what the probes print or call. -/
theorem exec_outcomes (env env2 : TestFunc → Exec)
    (h : ∀ f, (env2 f).outcome = (env f).outcome) (b : List Stmt) (s t : State)
    (hs : s.passed = t.passed ∧ s.failed = t.failed ∧ started s.log = started t.log) :
    (∃ s1 t1, exec env b s = .ok s1 ∧ exec env2 b t = .ok t1 ∧
      s1.passed = t1.passed ∧ s1.failed = t1.failed ∧ started s1.log = started t1.log) ∨
    (∃ s1 t1, exec env b s = .error s1 ∧ exec env2 b t = .error t1 ∧
      s1.passed = t1.passed ∧ s1.failed = t1.failed ∧ started s1.log = started t1.log) := by
  induction b generalizing s t with
  | nil => exact Or.inl ⟨s, t, rfl, rfl, hs⟩
  | cons st b ih =>
    obtain ⟨hp, hf, hl⟩ := hs
    cases st with
    | print text =>
      simp only [exec]
      exact ih _ _ ⟨hp, hf, by simp [started_append, started, hl]⟩
    | run name f =>
      have hc := run_test_cases env name f s
      have hc2 := run_test_cases env2 name f t
      rw [h f] at hc2
      rcases ho : (env f).outcome with ok | what | _
      · cases ok
        · rw [exec_run_ok env name f b s _ (hc.2.1 ho), exec_run_ok env2 name f b t _ (hc2.2.1 ho)]
          exact ih _ _ ⟨hp, by simp [hf], by simp [started_append, started, hl]⟩
        · rw [exec_run_ok env name f b s _ (hc.1 ho), exec_run_ok env2 name f b t _ (hc2.1 ho)]
          exact ih _ _ ⟨by simp [hp], hf, by simp [started_append, started, hl]⟩
      · rw [exec_run_ok env name f b s _ (hc.2.2.1 what ho),
          exec_run_ok env2 name f b t _ (hc2.2.2.1 what ho)]
        exact ih _ _ ⟨hp, by simp [hf], by simp [started_append, started, hl]⟩
      · rw [exec_run_error env name f b s _ (hc.2.2.2 ho),
          exec_run_error env2 name f b t _ (hc2.2.2.2 ho)]
        exact Or.inr ⟨_, _, rfl, rfl, hp, hf, by simp [started_append, started, hl]⟩

end Inclusion

/-! ## Lemmas on resources and on the standalone program -/

namespace Inclusion

theorem test_libjpeg_balanced (handle : Option Handle) :
    outstanding (test_libjpeg handle).trace = [] := by
  cases handle <;> simp [test_libjpeg, outstanding, outstandingFrom, acquired, released]

theorem test_freetype_balanced (error : Int) (library : Handle) (major minor patch : Int) :
    outstanding (test_freetype error library major minor patch).trace = [] := by
  by_cases h : error = 0
  · simp [test_freetype, h, outstanding, outstandingFrom, acquired, released]
  · simp [test_freetype, h, outstanding, outstandingFrom, acquired, released]

theorem test_hwloc_balanced (status : Int) (topology : Handle) (depth : Int) :
    outstanding (test_hwloc status topology depth).trace = [] := by
  by_cases h : status = 0
  · simp [test_hwloc, h, outstanding, outstandingFrom, acquired, released]
  · simp [test_hwloc, h, outstanding, outstandingFrom, acquired, released]

end Inclusion

namespace Standalone

theorem zip_block_balanced (L : Libs) : outstanding (zip_block L) = [] := by
  unfold zip_block
  cases L.zip <;> simp [outstanding, outstandingFrom, acquired, released]

/-- The exit status of the standalone `main`, by cases on what the libraries
answer. -/
theorem status_eq (L : Libs) :
    (main L).status
      = if L.png.isSome ∧ L.pngInfo.isSome ∧ L.ftError > 0 then EXIT_FAILURE else 0 := by
  unfold main after_zip
  cases L.png with
  | none => simp [boolToInt]
  | some png =>
    cases L.pngInfo with
    | none => simp [boolToInt]
    | some pngInfo =>
      by_cases h : L.ftError > 0
      · simp [h]
      · simp [h, EXIT_SUCCESS]

/-- The libpng structs the standalone `main` creates are still held when it
returns, on every path; nothing else is. -/
theorem outstanding_main (L : Libs) :
    outstanding (main L).trace
      = match L.png, L.pngInfo with
        | none, _ => []
        | some png, none => [(.png_struct, png)]
        | some png, some pngInfo => [(.png_struct, png), (.png_info, pngInfo)] := by
  unfold main after_zip zip_block
  cases L.zip <;> cases L.png <;> cases L.pngInfo <;>
    simp [outstanding, outstandingFrom, acquired, released]
  all_goals
    by_cases h : L.ftError > 0
    · have h0 : L.ftError ≠ 0 := by omega
      simp [h, h0, outstandingFrom, acquired, released]
    · by_cases h0 : L.ftError = 0
      · simp [h, h0, outstandingFrom, acquired, released]
      · simp [h, h0, outstandingFrom, acquired, released]

end Standalone

/-! ## The claims -/

namespace Inclusion

/-- C1: whatever the 23 probes do, when `main` reaches its summary (it
returns), `passed + failed` is 23, the number of probes `main` registers through
`run_test`, and each probe function has been called exactly once, in the order
of registration; and `main` does reach its summary whenever no probe raises an
error that leaves `run_test`. -/
theorem C1_passed_plus_failed (env : TestFunc → Exec) :
    (∀ status st, main env = .returned status st →
      st.passed + st.failed = 23 ∧ (funcs body).length = 23 ∧
      invoked st.log = funcs body ∧ ∀ f, (invoked st.log).count f = 1) ∧
    ((∀ f, (env f).outcome ≠ .throwOther) → ∃ status st, main env = .returned status st) := by
  constructor
  · intro status st h
    obtain ⟨s0, hs0⟩ := exec_of_returned env body status st h
    have hc : ∀ f, (env f).outcome ≠ .throwOther :=
      fun f => caught_of_exec_ok env body initial s0 hs0 f (mem_funcs_body f)
    obtain ⟨s, h1, h2, h3, _, h5⟩ := exec_body env hc
    obtain ⟨st1, e1, e2, e3, _, e5, _⟩ := main_with_ok env body s h1
    have hst : st = st1 := by
      have := h.symm.trans e1
      simp only [main, MainResult.returned.injEq] at this
      exact this.2
    have hlen : (funcs body).length = 23 := by rw [funcs_body]; rfl
    have ht := count_total env body
    subst hst
    refine ⟨?_, hlen, ?_, ?_⟩
    · rw [e2, e3, h2, h3]
      have : (countPassed env body : Int) + countFailed env body = 23 := by
        rw [← Nat.cast_add, ht, hlen]; rfl
      exact this
    · rw [e5, h5]
    · intro f; rw [e5, h5]; exact count_funcs_body f
  · intro hc
    obtain ⟨s, h1, _⟩ := exec_body env hc
    obtain ⟨st1, e1, _⟩ := main_with_ok env body s h1
    exact ⟨_, st1, e1⟩

/-- Witness of C1: with `test_zlib` returning `false` and `test_bzip2` throwing
a `std::exception`, `main` returns and its counters add up to 23. -/
theorem C1_passed_plus_failed_witness :
    (∀ f, (mixed f).outcome ≠ .throwOther) ∧
    ∃ status st, main mixed = .returned status st ∧ st.passed + st.failed = 23 := by
  have hc : ∀ f, (mixed f).outcome ≠ .throwOther := by intro f; cases f <;> decide
  obtain ⟨status, st, h⟩ := (C1_passed_plus_failed mixed).2 hc
  exact ⟨hc, status, st, h, ((C1_passed_plus_failed mixed).1 status st h).1⟩

/-- C2, as stated, fails: when `test_zlib` throws an object whose type does not
derive from `std::exception`, `run_test` does not catch it. The exception
leaves `run_test` with `failed` still 0 and no message logged, and the next
probe, `bzip2`, is never started. -/
theorem C2_uncaught_counterexample :
    (foreign .test_zlib).outcome = .throwOther ∧
    run_test foreign "zlib" .test_zlib initial
      = .error ⟨0, 0, initial.log ++ [.start "zlib", .call .test_zlib []]⟩ ∧
    exec foreign [.run "zlib" .test_zlib, .run "bzip2" .test_bzip2] initial
      = .error ⟨0, 0, initial.log ++ [.start "zlib", .call .test_zlib []]⟩ :=
  ⟨rfl, rfl, rfl⟩

/-- C2, amended: for every probe and every error it raises whose type derives
from `std::exception`, `run_test` catches the error, increments `failed` (by
one, within the range of `int`), logs `  EXCEPTION: ` followed by the message
of the error on `std::cerr`, and the run continues with the next statement. An
error of any other type is not caught: it leaves `run_test` and ends the
run. -/
theorem C2_failure_isolation (env : TestFunc → Exec) (name : String) (f : TestFunc) (s : State)
    (rest : List Stmt) :
    (∀ what, (env f).outcome = .throwStd what →
      run_test env name f s
        = .ok ⟨s.passed, incr s.failed,
            s.log ++ [.start name] ++ [.call f (env f).trace] ++ [.exception what]⟩ ∧
      render (.exception what) = [.cerr ("  EXCEPTION: " ++ what ++ "\n")] ∧
      (0 ≤ s.failed → s.failed < INT_MAX → incr s.failed = s.failed + 1) ∧
      exec env (.run name f :: rest) s
        = exec env rest ⟨s.passed, incr s.failed,
            s.log ++ [.start name] ++ [.call f (env f).trace] ++ [.exception what]⟩) ∧
    ((env f).outcome = .throwOther →
      run_test env name f s
        = .error ⟨s.passed, s.failed, s.log ++ [.start name] ++ [.call f (env f).trace]⟩ ∧
      exec env (.run name f :: rest) s
        = .error ⟨s.passed, s.failed, s.log ++ [.start name] ++ [.call f (env f).trace]⟩) := by
  have hc := run_test_cases env name f s
  constructor
  · intro what h
    exact ⟨hc.2.2.1 what h, rfl, incr_of_lt s.failed,
      exec_run_ok env name f rest s _ (hc.2.2.1 what h)⟩
  · intro h
    exact ⟨hc.2.2.2 h, exec_run_error env name f rest s _ (hc.2.2.2 h)⟩

/-- Witness of C2 amended: `test_bzip2` throws `std::runtime_error("boom")`
as the second of three probes; the error is caught, `failed` becomes 1 and the
third probe runs. -/
theorem C2_failure_isolation_witness :
    (raiseStd .test_bzip2).outcome = .throwStd "boom" ∧
    run_test raiseStd "P2" .test_bzip2 initial
      = .ok ⟨0, 1, initial.log ++ [.start "P2", .call .test_bzip2 [], .exception "boom"]⟩ ∧
    exec raiseStd [.run "P2" .test_bzip2, .run "P3" .test_lzma] initial
      = exec raiseStd [.run "P3" .test_lzma]
          ⟨0, 1, initial.log ++ [.start "P2", .call .test_bzip2 [], .exception "boom"]⟩ := by
  have h := (C2_failure_isolation raiseStd "P2" .test_bzip2 initial [.run "P3" .test_lzma]).1
    "boom" rfl
  exact ⟨rfl, h.1, h.2.2.2⟩

/-- C3, as stated, fails: when `test_zlib` raises an error whose type does not
derive from `std::exception`, a probe has failed, yet `main` does not return
an exit status: the process is ended by the uncaught exception with `failed`
still 0, and of the 23 probes only `test_zlib` has been called. -/
theorem C3_early_end_counterexample :
    (foreign .test_zlib).outcome.fails = true ∧
    ∃ s, main foreign = .terminated s ∧ s.failed = 0 ∧ invoked s.log = [.test_zlib] ∧
      invoked s.log ≠ funcs body := by
  exact ⟨by decide, _, rfl, by decide, by decide, by decide⟩

/-- C3, amended: if at least one probe fails (returns `false` or raises an
error deriving from `std::exception`) and no probe raises an error of another
type, then `main` returns `EXIT_FAILURE`, which is not 0, `failed` is at least
1, and all 23 probes are called: the sequence of probes called is the one of a
run in which every probe returns `true`. -/
theorem C3_failure_exit (env : TestFunc → Exec)
    (hc : ∀ f, (env f).outcome ≠ .throwOther) (hf : ∃ f, (env f).outcome.fails = true) :
    ∃ st, main env = .returned EXIT_FAILURE st ∧ EXIT_FAILURE ≠ 0 ∧ 1 ≤ st.failed ∧
      invoked st.log = funcs body ∧
      ∀ env0 : TestFunc → Exec, (∀ f, (env0 f).outcome = .ret true) →
        invoked (main env0).final.log = invoked st.log := by
  obtain ⟨s, h1, _, h3, _, h5⟩ := exec_body env hc
  obtain ⟨st, e1, _, e3, _, e5, _⟩ := main_with_ok env body s h1
  obtain ⟨f, hfail⟩ := hf
  have hpos : 0 < countFailed env body := countFailed_pos env body f (mem_funcs_body f) hfail
  have hs : 0 < s.failed := by rw [h3]; exact_mod_cast hpos
  refine ⟨st, ?_, by decide, ?_, ?_, ?_⟩
  · simpa [main, hs] using e1
  · rw [e3]; omega
  · rw [e5, h5]
  · intro env0 h0
    obtain ⟨s0, g1, _, _, _, g5⟩ := exec_body env0 (fun f => by rw [h0 f]; simp)
    obtain ⟨st0, k1, _, _, _, k5, _⟩ := main_with_ok env0 body s0 g1
    have : main env0 = .returned (if s0.failed > 0 then EXIT_FAILURE else EXIT_SUCCESS) st0 := k1
    rw [this, e5, h5]
    exact k5.trans g5

/-- Witness of C3 amended: `test_zlib` returns `false` and `test_bzip2` throws
a `std::exception`; `main` returns `EXIT_FAILURE` after calling all probes. -/
theorem C3_failure_exit_witness :
    (∀ f, (mixed f).outcome ≠ .throwOther) ∧ (mixed .test_zlib).outcome.fails = true ∧
    ∃ st, main mixed = .returned EXIT_FAILURE st ∧ 1 ≤ st.failed ∧
      invoked st.log = funcs body := by
  have hc : ∀ f, (mixed f).outcome ≠ .throwOther := by intro f; cases f <;> decide
  obtain ⟨st, h1, _, h3, h4, _⟩ := C3_failure_exit mixed hc ⟨.test_zlib, rfl⟩
  exact ⟨hc, rfl, st, h1, h3, h4⟩

/-- C4: if every registered probe returns `true`, then `main` returns
`EXIT_SUCCESS`, which is 0, with `failed` equal to 0 and `passed` equal to 23,
the number of registered probes. -/
theorem C4_all_pass (env : TestFunc → Exec) (h : ∀ f, (env f).outcome = .ret true) :
    ∃ st, main env = .returned EXIT_SUCCESS st ∧ EXIT_SUCCESS = 0 ∧ st.failed = 0 ∧
      st.passed = 23 ∧ (funcs body).length = 23 := by
  obtain ⟨s, h1, h2, h3, _, _⟩ := exec_body env (fun f => by rw [h f]; simp)
  obtain ⟨st, e1, e2, e3, _, _, _⟩ := main_with_ok env body s h1
  have hlen : (funcs body).length = 23 := by rw [funcs_body]; rfl
  have hp : countPassed env body = 23 := by rw [countPassed_allTrue env body h, hlen]
  have hz : countFailed env body = 0 := by
    have := count_total env body
    omega
  have hs : s.failed = 0 := by rw [h3, hz]; rfl
  refine ⟨st, ?_, rfl, ?_, ?_, hlen⟩
  · simpa [main, hs] using e1
  · rw [e3, hs]
  · rw [e2, h2, hp]; rfl

/-- Witness of C4: the run in which every probe returns `true`. -/
theorem C4_all_pass_witness :
    (∀ f, (allTrue f).outcome = .ret true) ∧
    ∃ st, main allTrue = .returned 0 st ∧ st.failed = 0 ∧ st.passed = 23 := by
  obtain ⟨st, h1, _, h3, h4, _⟩ := C4_all_pass allTrue (fun _ => rfl)
  exact ⟨fun _ => rfl, st, h1, h3, h4⟩

/-- C5, as stated, fails: of the three probes P1, P2, P3, two return `true`
and one, P2, raises an error, whose type does not derive from `std::exception`.
The run ends at P2 with `passed` equal to 1 and `failed` equal to 0, and no
summary is printed. -/
theorem C5_uncaught_counterexample :
    countPassed raiseOther threeProbes = 2 ∧ countFailed raiseOther threeProbes = 1 ∧
    main_with raiseOther threeProbes
      = .terminated ⟨1, 0, initial.log ++ [.start "P1", .call .test_zlib [], .start "P2",
          .call .test_bzip2 []]⟩ :=
  ⟨rfl, rfl, rfl⟩

/-- C5, amended: for every sequence of at most `INT_MAX` probes fed through
`run_test` in which every error raised derives from `std::exception`, the final
`passed` is the number of probes that returned `true`, the final `failed` is the
number of probes that returned `false` or raised, and the exit status is
`EXIT_FAILURE` exactly when that number is positive; a probe returning `false`
is counted failed by the `FAILED!` branch, not by the exception handler. For
the three probes success, `std::exception`, success: `passed` is 2, `failed` is
1, the summary is `2 passed, 1 failed` and the exit status is not 0. -/
theorem C5_counters (env : TestFunc → Exec) (b : List Stmt)
    (hc : ∀ f ∈ funcs b, (env f).outcome ≠ .throwOther)
    (hb : ((funcs b).length : Int) ≤ INT_MAX) :
    (∃ st, main_with env b
        = .returned (if 0 < countFailed env b then EXIT_FAILURE else EXIT_SUCCESS) st ∧
      st.passed = countPassed env b ∧ st.failed = countFailed env b) ∧
    (∀ name f s, (env f).outcome = .ret false →
      run_test env name f s
        = .ok ⟨s.passed, incr s.failed,
            s.log ++ [.start name] ++ [.call f (env f).trace] ++ [.failed]⟩ ∧
      render .failed = [.cerr "  FAILED!\n"]) ∧
    main_with raiseStd threeProbes
      = .returned EXIT_FAILURE ⟨2, 1, initial.log ++ [.start "P1", .call .test_zlib [],
          .start "P2", .call .test_bzip2 [], .exception "boom", .start "P3", .call .test_lzma [],
          .cout "\n========================================\n",
          .cout "   Results: 2 passed, 1 failed\n",
          .cout "========================================\n\n"]⟩ ∧
    EXIT_FAILURE ≠ 0 := by
  refine ⟨?_, ?_, rfl, by decide⟩
  · obtain ⟨s, h1, h2, h3, _, _⟩ := exec_caught env b initial hc (by decide) (by decide)
      (by simpa [initial] using hb)
    obtain ⟨st, e1, e2, e3, _, _, _⟩ := main_with_ok env b s h1
    have h2a : s.passed = countPassed env b := by rw [h2]; simp [initial]
    have h3a : s.failed = countFailed env b := by rw [h3]; simp [initial]
    refine ⟨st, ?_, by rw [e2, h2a], by rw [e3, h3a]⟩
    rw [e1, h3a]
    by_cases hz : 0 < countFailed env b
    · have : (countFailed env b : Int) > 0 := by exact_mod_cast hz
      simp [hz, this]
    · have : ¬ (countFailed env b : Int) > 0 := by
        intro hh; exact hz (by exact_mod_cast hh)
      simp [hz]
  · intro name f s h
    exact ⟨(run_test_cases env name f s).2.1 h, rfl⟩

/-- Witness of C5 amended: the three probes success, `std::exception`,
success. -/
theorem C5_counters_witness :
    (∀ f ∈ funcs threeProbes, (raiseStd f).outcome ≠ .throwOther) ∧
    ((funcs threeProbes).length : Int) ≤ INT_MAX ∧
    ∃ st, main_with raiseStd threeProbes = .returned EXIT_FAILURE st ∧
      st.passed = 2 ∧ st.failed = 1 := by
  have hc : ∀ f ∈ funcs threeProbes, (raiseStd f).outcome ≠ .throwOther := by
    intro f _; cases f <;> decide
  have hb : ((funcs threeProbes).length : Int) ≤ INT_MAX := by decide
  obtain ⟨st, h1, h2, h3⟩ := (C5_counters raiseStd threeProbes hc hb).1
  exact ⟨hc, hb, st, h1, h2, h3⟩

/-- C6, as stated, fails: when `test_zlib` raises an error whose type does not
derive from `std::exception`, the only start marker of the run is the one of
`zlib`, not the list of the 23 names. -/
theorem C6_truncated_counterexample :
    started (main foreign).final.log = ["zlib"] ∧
    started (main foreign).final.log ≠ names body := by
  decide

/-- C6, amended: for every assignment of probe outcomes in which no probe
raises an error of a type not deriving from `std::exception`, `main` calls
every registered probe exactly once, in the order of declaration: the names
announced by the start markers are the fixed list of 23 names. For every
assignment of outcomes, two runs with the same probe outcomes announce the
same names and end with the same counters. -/
theorem C6_order (env : TestFunc → Exec) :
    ((∀ f, (env f).outcome ≠ .throwOther) →
      started (main env).final.log
        = ["zlib", "bzip2", "lzma", "zstd", "brotli", "libpng", "libjpeg-turbo", "libwebp",
            "freetype", "harfbuzz", "openal-soft", "libsamplerate", "taglib", "libzip",
            "cpu_features", "hwloc", "cryptopp", "clipper2", "libzmq", "cppzmq", "fastgltf",
            "jsoncpp", "lunasvg"] ∧
      invoked (main env).final.log = funcs body ∧
      ∀ f, (invoked (main env).final.log).count f = 1) ∧
    (∀ env2 : TestFunc → Exec, (∀ f, (env2 f).outcome = (env f).outcome) →
      started (main env2).final.log = started (main env).final.log ∧
      (main env2).final.passed = (main env).final.passed ∧
      (main env2).final.failed = (main env).final.failed) := by
  constructor
  · intro hc
    obtain ⟨s, h1, _, _, h4, h5⟩ := exec_body env hc
    obtain ⟨st, e1, _, _, e4, e5, _⟩ := main_with_ok env body s h1
    have hm : main env = .returned (if s.failed > 0 then EXIT_FAILURE else EXIT_SUCCESS) st := e1
    rw [hm]
    simp only [MainResult.final]
    refine ⟨by rw [e4, h4, names_body], by rw [e5, h5], ?_⟩
    intro f; rw [e5, h5]; exact count_funcs_body f
  · intro env2 h
    rcases exec_outcomes env env2 h body initial initial ⟨rfl, rfl, rfl⟩ with
      ⟨s1, t1, h1, h2, hp, hf, hl⟩ | ⟨s1, t1, h1, h2, hp, hf, hl⟩
    · obtain ⟨st, e1, e2, e3, e4, _, _⟩ := main_with_ok env body s1 h1
      obtain ⟨st2, k1, k2, k3, k4, _, _⟩ := main_with_ok env2 body t1 h2
      have hm : main env = .returned (if s1.failed > 0 then EXIT_FAILURE else EXIT_SUCCESS) st :=
        e1
      have hm2 : main env2
          = .returned (if t1.failed > 0 then EXIT_FAILURE else EXIT_SUCCESS) st2 := k1
      rw [hm, hm2]
      simp only [MainResult.final]
      exact ⟨by rw [k4, e4, hl], by rw [k2, e2, hp], by rw [k3, e3, hf]⟩
    · have hm : main env = .terminated s1 := by simp only [main, main_with, h1]
      have hm2 : main env2 = .terminated t1 := by simp only [main, main_with, h2]
      rw [hm, hm2]
      simp only [MainResult.final]
      exact ⟨hl.symm, hp.symm, hf.symm⟩

/-- Witness of C6 amended: with `test_zlib` returning `false` and `test_bzip2`
throwing a `std::exception`, the start markers are the 23 names in order. -/
theorem C6_order_witness :
    (∀ f, (mixed f).outcome ≠ .throwOther) ∧
    started (main mixed).final.log = names body ∧
    invoked (main mixed).final.log = funcs body := by
  have hc : ∀ f, (mixed f).outcome ≠ .throwOther := by intro f; cases f <;> decide
  have h := (C6_order mixed).1 hc
  exact ⟨hc, by rw [h.1, names_body], h.2.1⟩

/-- C7, as stated, fails: when `Document::loadFromData` returns a null
document, `test_lunasvg` prints `lunasvg: OK (linkage verified)` and returns
`true`, and `run_test` counts the probe as passed: `passed` is incremented and
`failed` is not. -/
theorem C7_lunasvg_counterexample :
    test_lunasvg none
      = ⟨[.lib (.loadFromData false), .cout "  lunasvg: OK (linkage verified)\n"], .ret true⟩ ∧
    run_test nullDocument "lunasvg" .test_lunasvg initial
      = .ok ⟨1, 0, initial.log ++ [.start "lunasvg",
          .call .test_lunasvg [.lib (.loadFromData false),
            .cout "  lunasvg: OK (linkage verified)\n"]]⟩ :=
  ⟨rfl, rfl⟩

/-- C7, amended: `test_libjpeg` returns `false` when `tjInitCompress` returns a
null handle, and `test_freetype` returns `false` when `FT_Init_FreeType` returns
a non-zero error; `run_test` then writes `FAILED!`, increments `failed`, leaves
`passed` as it is and returns, so that the run goes on with the next probe.
`test_lunasvg` returns `true` whether or not `loadFromData` returns a
document. -/
theorem C7_null_handle (env : TestFunc → Exec) (s : State) (rest : List Stmt) :
    (test_libjpeg none).outcome = .ret false ∧
    (∀ error library major minor patch, error ≠ 0 →
      (test_freetype error library major minor patch).outcome = .ret false) ∧
    (∀ name f, (env f).outcome = .ret false →
      run_test env name f s
        = .ok ⟨s.passed, incr s.failed,
            s.log ++ [.start name] ++ [.call f (env f).trace] ++ [.failed]⟩ ∧
      (0 ≤ s.failed → s.failed < INT_MAX → incr s.failed = s.failed + 1) ∧
      exec env (.run name f :: rest) s
        = exec env rest ⟨s.passed, incr s.failed,
            s.log ++ [.start name] ++ [.call f (env f).trace] ++ [.failed]⟩) ∧
    (∀ document, (test_lunasvg document).outcome = .ret true) := by
  refine ⟨rfl, ?_, ?_, ?_⟩
  · intro error library major minor patch h
    simp [test_freetype, h]
  · intro name f h
    have hr := (run_test_cases env name f s).2.1 h
    exact ⟨hr, incr_of_lt s.failed, exec_run_ok env name f rest s _ hr⟩
  · intro document
    cases document <;> rfl

/-- Witness of C7 amended: `tjInitCompress` returns a null handle and
`FT_Init_FreeType` returns the error 1; both probes are counted failed. -/
theorem C7_null_handle_witness :
    (nullHandles .test_libjpeg).outcome = .ret false ∧
    (nullHandles .test_freetype).outcome = .ret false ∧
    run_test nullHandles "libjpeg-turbo" .test_libjpeg initial
      = .ok ⟨0, 1, initial.log ++ [.start "libjpeg-turbo",
          .call .test_libjpeg [.lib (.tjInitCompress none)], .failed]⟩ ∧
    run_test nullHandles "freetype" .test_freetype initial
      = .ok ⟨0, 1, initial.log ++ [.start "freetype",
          .call .test_freetype [.lib (.FT_Init_FreeType 1 0)], .failed]⟩ := by
  have h := C7_null_handle nullHandles initial []
  have h1 : (nullHandles .test_libjpeg).outcome = .ret false := h.1
  have h2 : (nullHandles .test_freetype).outcome = .ret false := h.2.1 1 0 0 0 0 (by decide)
  exact ⟨h1, h2, (h.2.2.1 "libjpeg-turbo" .test_libjpeg h1).1,
    (h.2.2.1 "freetype" .test_freetype h2).1⟩

end Inclusion

namespace Standalone

/-- C8, evaluated where it fails: when `png_create_read_struct` returns a null
pointer, or `png_create_info_struct` does, the standalone `main` executes
`return false`, so the exit status is 0, the one of the run in which every
check passes; only a failure of `FT_Init_FreeType` gives `EXIT_FAILURE`. -/
theorem C8_png_null_exit_status :
    pngNull.png = none ∧ (main pngNull).status = 0 ∧
    pngInfoNull.pngInfo = none ∧ (main pngInfoNull).status = 0 ∧
    (main nominal).status = 0 ∧
    (main { nominal with ftError := 1 }).status = EXIT_FAILURE ∧ EXIT_FAILURE ≠ 0 := by
  decide

/-- C9: the exit status of the standalone `main` does not depend on what
`zip_open("inexistant.zip")` returns nor on `errorCode`; the libzip block has no
`return`, and `main` goes on with `png_create_read_struct` after it. When the
handle is null the block prints `Expected error from ziplib (No such file !) : `
followed by the text libzip gives for `errorCode`; when the handle is not null
the block closes the archive. -/
theorem C9_zip_outcome_ignored (L : Libs) (zip : Option Handle) (errorCode : Int)
    (strerror : Int → String) :
    (main { L with zip := zip, errorCode := errorCode, strerror := strerror }).status
      = (main L).status ∧
    (main L).trace = [.cout "Dependencies tests.\n"] ++ zip_block L ++ (after_zip L).trace ∧
    (after_zip L).trace.head? = some (.lib (.png_create_read_struct L.png)) ∧
    (L.zip = none →
      zip_block L
        = [.lib (.zip_open none L.errorCode), .lib (.zip_error_init_with_code L.errorCode),
            .lib .zip_error_strerror,
            .cout ("Expected error from ziplib (No such file !) : " ++ L.strerror L.errorCode
              ++ " !\n"),
            .lib .zip_error_fini]) ∧
    (∀ z, L.zip = some z →
      zip_block L = [.lib (.zip_open (some z) L.errorCode), .lib (.zip_close z)]) := by
  refine ⟨rfl, rfl, ?_, ?_, ?_⟩
  · unfold after_zip
    cases L.png with
    | none => rfl
    | some png =>
      cases L.pngInfo with
      | none => rfl
      | some pngInfo =>
        by_cases h : L.ftError > 0
        · simp [h]
        · simp [h]
  · intro h; simp [zip_block, h]
  · intro z h; simp [zip_block, h]

/-- Witness of C9: the archive does not exist (code 9), and the archive
opens. -/
theorem C9_zip_outcome_ignored_witness :
    nominal.zip = none ∧ zipOpens.zip = some 7 ∧
    (main zipOpens).status = (main nominal).status ∧
    zip_block nominal
      = [.lib (.zip_open none 9), .lib (.zip_error_init_with_code 9), .lib .zip_error_strerror,
          .cout "Expected error from ziplib (No such file !) : No such file !\n",
          .lib .zip_error_fini] ∧
    zip_block zipOpens = [.lib (.zip_open (some 7) 0), .lib (.zip_close 7)] := by
  have h := C9_zip_outcome_ignored nominal (some 7) 0 (fun _ => "No such file")
  have h2 := C9_zip_outcome_ignored zipOpens none 0 (fun _ => "")
  exact ⟨rfl, rfl, h.1, h.2.2.2.1 rfl, h2.2.2.2.2 7 rfl⟩

/-- C10, evaluated where it fails: in the run of the standalone `main` in which
every library works, the libpng read struct and info struct are still held when
`main` returns (the source calls no `png_destroy_*` function), while the libzip
error and the FreeType library of the same run have been released. -/
theorem C10_png_structs_not_released :
    outstanding (main nominal).trace = [(.png_struct, 1), (.png_info, 2)] ∧
    (main nominal).trace
      = [.cout "Dependencies tests.\n", .lib (.zip_open none 9),
          .lib (.zip_error_init_with_code 9), .lib .zip_error_strerror,
          .cout "Expected error from ziplib (No such file !) : No such file !\n",
          .lib .zip_error_fini, .lib (.png_create_read_struct (some 1)),
          .lib (.png_create_info_struct 1 (some 2)), .lib (.FT_Init_FreeType 0 3),
          .lib (.FT_Done_FreeType 3)] := by
  decide

end Standalone

end DepsTest
